import Mathlib

/-!
A shallow embedding of the write path of the swapvec crate
(src/swapvec.rs together with src/error.rs), and proofs about its
threshold-driven flush behaviour.

The in-memory `VecDeque<T>` is modelled as a `List T` whose head is the
front of the deque; `push_back` appends at the tail and `pop_front` takes
the head.  The temporary file is modelled by the list of bytes appended to
it so far.  External effects (the tempfile provider, bincode, the
compression adapter, the hasher, and the outcomes of the io calls) are
supplied by an explicit environment so that every behaviour of the
surrounding system is captured by quantifying over environments.

Two ways the Rust code can abort the process are modelled explicitly:
a failing `unwrap()` and the `todo!()` body of
`impl From<std::io::Error> for SwapVecError` in src/error.rs.
-/

namespace SwapVecModel

/-- `CompressionLevel` (src/swapvec.rs lines 20-31). -/
inductive CompressionLevel where
  | Slow
  | Default
  | Fast
  deriving DecidableEq

/-- `Compression` (src/swapvec.rs lines 37-43). -/
inductive Compression where
  | Lz4
  | Deflate (level : CompressionLevel)
  deriving DecidableEq

/-- `SwapVecConfig` (src/swapvec.rs lines 54-80). -/
structure SwapVecConfig where
  swap_after : Nat
  batch_size : Nat
  compression : Option Compression
  deriving DecidableEq

/-- `impl Default for SwapVecConfig` (src/swapvec.rs lines 82-90). -/
def SwapVecConfig.default : SwapVecConfig :=
  { swap_after := 32 * 1024 * 1024
    batch_size := 32 * 1024
    compression := none }

/-- Stand-in for the payload of the external `bincode::ErrorKind`. -/
structure BincodeErrorKind where
  code : Nat
  deriving DecidableEq

/-- The categories of the external `std::io::Error` relevant here. -/
inductive IoErrorKind where
  | permissionDenied
  | outOfDisk
  | other
  deriving DecidableEq

/-- `SwapVecError` (src/error.rs lines 7-22). -/
inductive SwapVecError where
  | MissingPermissions
  | OutOfDisk
  | WrongChecksum
  | SerializationFailed (e : BincodeErrorKind)
  | Other
  deriving DecidableEq

/-- `impl From<std::io::Error> for SwapVecError` (src/error.rs lines 24-28).
The body of the source function is `todo!()`: it never produces a
`SwapVecError` value but panics unconditionally; the panic is modelled as
`none`. -/
def fromIoError : IoErrorKind → Option SwapVecError := fun _ => none

/-- The ways the write path can abort the whole process instead of
returning: a failing `unwrap()`, or reaching the `todo!()` stub of the
io-error conversion. -/
inductive PanicKind where
  | unwrapFailed
  | todoUnimplemented
  deriving DecidableEq

/-- The `?` operator applied to a `Result<_, std::io::Error>` inside a
function returning `Result<_, SwapVecError>`: the io error is routed
through `From<std::io::Error> for SwapVecError`, whose `todo!()` body
(modelled by `fromIoError` returning `none`) panics. -/
def ioTry (e : IoErrorKind) : Except PanicKind SwapVecError :=
  match fromIoError e with
  | none => .error PanicKind.todoUnimplemented
  | some err => .ok err

/-- `BatchInfo` (src/swapvec.rs lines 92-95). -/
structure BatchInfo where
  hash : Nat
  bytes : Nat
  deriving DecidableEq

/-- `CheckedFile` (src/swapvec.rs lines 97-100).  The `File` member is
modelled by the list of bytes appended to it so far. -/
structure CheckedFile where
  file : List Nat
  batch_info : List BatchInfo
  deriving DecidableEq

/-- The environment of external effects seen by the write path.
`tempfileNew` is the outcome of `tempfile::tempfile()`; `serialize` is
`bincode::serialize` (an external codec, possibly failing); `hashBytes`
is `DefaultHasher` run over a byte buffer; `writeAll` and `flushFile`
are the outcomes of `File::write_all` and `File::flush`.

Modelled from the spec: `compress` stands for the `Compress` trait of
src/compression.rs, which is not among the sources; section 4.4 of the
spec treats the adapter as a stateless black box selected by the
configuration, so it is an opaque function of the selector and the
bytes. -/
structure Env (T : Type) where
  tempfileNew : Except IoErrorKind Unit
  serialize : List T → Except BincodeErrorKind (List Nat)
  compress : Option Compression → List Nat → List Nat
  hashBytes : List Nat → Nat
  writeAll : List Nat → Except IoErrorKind Unit
  flushFile : Except IoErrorKind Unit

variable {T : Type}

/-- `CheckedFile::write_all` (src/swapvec.rs lines 103-112): hash the
buffer, write it to the file, record the batch in `batch_info`, flush the
file.  When the write itself fails the record is not pushed; when only
the final flush fails the record has already been pushed. -/
def CheckedFile.write_all (env : Env T) (cf : CheckedFile) (buffer : List Nat) :
    CheckedFile × Except IoErrorKind Unit :=
  let h := env.hashBytes buffer
  match env.writeAll buffer with
  | .error e => (cf, .error e)
  | .ok _ =>
    let cf2 : CheckedFile :=
      { file := cf.file ++ buffer
        batch_info := cf.batch_info ++ [{ hash := h, bytes := buffer.length }] }
    match env.flushFile with
    | .error e => (cf2, .error e)
    | .ok _ => (cf2, .ok ())

/-- `CheckedFile::file_size` (src/swapvec.rs lines 114-116). -/
def CheckedFile.file_size (cf : CheckedFile) : Nat :=
  (cf.batch_info.map fun x => x.bytes).sum

/-- `SwapVec<T>` (src/swapvec.rs lines 131-138). -/
structure SwapVecState (T : Type) where
  tempfile : Option CheckedFile
  vector : List T
  config : SwapVecConfig
  deriving DecidableEq

/-- `impl Default for SwapVec<T>` (src/swapvec.rs lines 140-148). -/
def SwapVecState.default (T : Type) : SwapVecState T :=
  { tempfile := none
    vector := []
    config := SwapVecConfig.default }

/-- `SwapVec::with_config` (src/swapvec.rs lines 176-182). -/
def SwapVecState.with_config (T : Type) (config : SwapVecConfig) : SwapVecState T :=
  { tempfile := none
    vector := []
    config := config }

/-- `SwapVec::written_to_file` (src/swapvec.rs lines 204-206). -/
def SwapVecState.written_to_file (s : SwapVecState T) : Bool :=
  s.tempfile.isSome

/-- `SwapVec::file_size` (src/swapvec.rs lines 210-215). -/
def SwapVecState.file_size (s : SwapVecState T) : Option Nat :=
  match s.tempfile with
  | none => none
  | some f => some f.file_size

/-- `SwapVec::batches_written` (src/swapvec.rs lines 218-223). -/
def SwapVecState.batches_written (s : SwapVecState T) : Nat :=
  match s.tempfile with
  | none => 0
  | some f => f.batch_info.length

/-- The loop `(0..batch_size).map(|_| self.vector.pop_front().unwrap())`
of src/swapvec.rs lines 241-243: take `n` elements off the front, in
order; `none` models a panicking `unwrap()` on an exhausted deque. -/
def popFrontN : Nat → List T → Option (List T × List T)
  | 0, v => some ([], v)
  | _ + 1, [] => none
  | n + 1, x :: rest =>
    match popFrontN n rest with
    | none => none
    | some (b, r) => some (x :: b, r)

/-- The tail of `SwapVec::after_push_work` from the batch extraction on
(src/swapvec.rs lines 241-250): pop `batch_size` elements, serialize,
compress, hand to `CheckedFile::write_all`.  State changes made before a
failure persist, as they do on the mutated Rust `self`. -/
def flush_pop (env : Env T) (s1 : SwapVecState T) :
    Except PanicKind (SwapVecState T × Except SwapVecError Unit) :=
  match popFrontN s1.config.batch_size s1.vector with
  | none => .error PanicKind.unwrapFailed
  | some (batch, rest) =>
    let s2 : SwapVecState T := { s1 with vector := rest }
    match env.serialize batch with
    | .error be => .ok (s2, .error (SwapVecError.SerializationFailed be))
    | .ok buffer =>
      let compressed := env.compress s2.config.compression buffer
      match s2.tempfile with
      | none => .error PanicKind.unwrapFailed
      | some cf =>
        match CheckedFile.write_all env cf compressed with
        | (cf2, .error e) =>
          match ioTry e with
          | .error p => .error p
          | .ok err => .ok ({ s2 with tempfile := some cf2 }, .error err)
        | (cf2, .ok _) => .ok ({ s2 with tempfile := some cf2 }, .ok ())

/-- The flush block of `SwapVec::after_push_work`
(src/swapvec.rs lines 233-250): open the temporary file if none is open
yet, then extract and write one batch. -/
def flush_batch (env : Env T) (s : SwapVecState T) :
    Except PanicKind (SwapVecState T × Except SwapVecError Unit) :=
  if s.tempfile.isNone then
    match env.tempfileNew with
    | .error e =>
      match ioTry e with
      | .error p => .error p
      | .ok err => .ok (s, .error err)
    | .ok _ =>
      flush_pop env { s with tempfile := some { file := [], batch_info := [] } }
  else
    flush_pop env s

/-- `SwapVec::after_push_work` (src/swapvec.rs lines 225-251). -/
def after_push_work (env : Env T) (s : SwapVecState T) :
    Except PanicKind (SwapVecState T × Except SwapVecError Unit) :=
  if s.vector.length ≤ s.config.batch_size then
    .ok (s, .ok ())
  else if s.tempfile.isNone ∧ s.vector.length ≤ s.config.swap_after then
    .ok (s, .ok ())
  else
    flush_batch env s

/-- `SwapVec::push` (src/swapvec.rs lines 196-199). -/
def push (env : Env T) (s : SwapVecState T) (x : T) :
    Except PanicKind (SwapVecState T × Except SwapVecError Unit) :=
  after_push_work env { s with vector := s.vector ++ [x] }

/-- `SwapVec::consume` (src/swapvec.rs lines 186-192): for each element
of the iterator, `push` it (which already runs `after_push_work`) and
then run `after_push_work` once more, short-circuiting on failure. -/
def consume (env : Env T) (s : SwapVecState T) :
    List T → Except PanicKind (SwapVecState T × Except SwapVecError Unit)
  | [] => .ok (s, .ok ())
  | x :: it =>
    match push env s x with
    | .error p => .error p
    | .ok (s1, .error e) => .ok (s1, .error e)
    | .ok (s1, .ok _) =>
      match after_push_work env s1 with
      | .error p => .error p
      | .ok (s2, .error e) => .ok (s2, .error e)
      | .ok (s2, .ok _) => consume env s2 it

/-- A caller loop feeding a sequence of values to `push` one at a time,
short-circuiting on the first failure; each step may face a different
environment. -/
def pushAll (s : SwapVecState T) :
    List (Env T × T) → Except PanicKind (SwapVecState T × Except SwapVecError Unit)
  | [] => .ok (s, .ok ())
  | (env, x) :: rest =>
    match push env s x with
    | .error p => .error p
    | .ok (s1, .error e) => .ok (s1, .error e)
    | .ok (s1, .ok _) => pushAll s1 rest

/-- The state reached by pushing `vals` one at a time into a fresh buffer
under a fixed environment, when every push succeeds. -/
def runPushes (c : SwapVecConfig) (env : Env T) (vals : List T) :
    Option (SwapVecState T) :=
  match pushAll (SwapVecState.with_config T c) (vals.map fun v => (env, v)) with
  | .ok (s, .ok _) => some s
  | _ => none

/-- The state reached by `consume` of `vals` on a fresh buffer under a
fixed environment, when it succeeds. -/
def runConsume (c : SwapVecConfig) (env : Env T) (vals : List T) :
    Option (SwapVecState T) :=
  match consume env (SwapVecState.with_config T c) vals with
  | .ok (s, .ok _) => some s
  | _ => none

/-- A concrete environment in which every external effect succeeds:
serialization is the identity on the value list read as bytes, the
compression adapter is the identity, and the hash of a buffer is its
length. -/
def envOk : Env Nat :=
  { tempfileNew := .ok ()
    serialize := fun b => .ok b
    compress := fun _ b => b
    hashBytes := fun b => b.length
    writeAll := fun _ => .ok ()
    flushFile := .ok () }

/-- Like `envOk` but every file write fails with an out-of-disk error. -/
def envWriteFail : Env Nat :=
  { envOk with writeAll := fun _ => .error IoErrorKind.outOfDisk }

/-- Like `envOk` but serialization always fails. -/
def envSerFail : Env Nat :=
  { envOk with serialize := fun _ => .error { code := 7 } }

/-- Like `envOk` but creating the temporary file fails with a permission
error. -/
def envTempFail : Env Nat :=
  { envOk with tempfileNew := .error IoErrorKind.permissionDenied }

/-- The state a successful flush is expected to produce: the file (empty
if it was only now opened) extended by the compressed serialized batch,
one more batch record, and the `batch_size` oldest elements gone from the
front of the queue. -/
def expectedFlush (env : Env T) (s : SwapVecState T) (buf : List Nat) :
    SwapVecState T :=
  let cf0 := s.tempfile.getD { file := [], batch_info := [] }
  let compressed := env.compress s.config.compression buf
  { tempfile := some
      { file := cf0.file ++ compressed
        batch_info := cf0.batch_info ++
          [{ hash := env.hashBytes compressed, bytes := compressed.length }] }
    vector := s.vector.drop s.config.batch_size
    config := s.config }

/-- Configuration with `batch_size = 4` and `swap_after = 4`. -/
def cfg44 : SwapVecConfig :=
  { swap_after := 4, batch_size := 4, compression := none }

/-- Configuration with `batch_size = 1` and `swap_after = 1`. -/
def cfgOne : SwapVecConfig :=
  { swap_after := 1, batch_size := 1, compression := none }

/-- Configuration with `batch_size = 1` and `swap_after = 2`. -/
def cfgBurst : SwapVecConfig :=
  { swap_after := 2, batch_size := 1, compression := none }

/-- Configuration with `batch_size = 1000` and `swap_after = 1000`. -/
def cfgLarge : SwapVecConfig :=
  { swap_after := 1000, batch_size := 1000, compression := none }

/-- A buffer that has already opened its (still empty) temporary file and
holds two elements, with `cfgOne`. -/
def sSpilledTwo : SwapVecState Nat :=
  { tempfile := some { file := [], batch_info := [] }
    vector := [7, 8]
    config := cfgOne }

/-- A fresh buffer holding two elements, with `cfgOne`. -/
def sFreshTwo : SwapVecState Nat :=
  { tempfile := none
    vector := [1, 2]
    config := cfgOne }

/-- A buffer that has already opened its (still empty) temporary file and
holds no elements, with `cfg44`. -/
def sSpilledEmpty : SwapVecState Nat :=
  { tempfile := some { file := [], batch_info := [] }
    vector := []
    config := cfg44 }

theorem popFrontN_of_le (n : Nat) (v : List T) (h : n ≤ v.length) :
    popFrontN n v = some (v.take n, v.drop n) := by
  induction n generalizing v with
  | zero => simp [popFrontN]
  | succ n ih =>
    cases v with
    | nil => simp at h
    | cons x rest =>
      have h' : n ≤ rest.length := by
        simpa using Nat.succ_le_succ_iff.mp (by simpa using h)
      simp [popFrontN, ih rest h']

theorem flush_pop_cases (env : Env T) (s1 s' : SwapVecState T)
    (r : Except SwapVecError Unit) (cf0 : CheckedFile)
    (hcf : s1.tempfile = some cf0)
    (hle : s1.config.batch_size ≤ s1.vector.length)
    (h : flush_pop env s1 = .ok (s', r)) :
    s'.config = s1.config ∧
    s'.vector = s1.vector.drop s1.config.batch_size ∧
    ((∃ be, r = .error (SwapVecError.SerializationFailed be) ∧
        s'.tempfile = some cf0) ∨
     (r = .ok () ∧ ∃ bytes rec, s'.tempfile =
        some { file := cf0.file ++ bytes
               batch_info := cf0.batch_info ++ [rec] })) := by
  unfold flush_pop at h
  split at h
  · exact absurd h (by simp)
  · rename_i batch rest heq
    rw [popFrontN_of_le _ _ hle] at heq
    obtain ⟨hbatch, hrest⟩ := Prod.mk.injEq .. ▸ Option.some.inj heq
    split at h
    · rename_i be hser
      simp only [Except.ok.injEq, Prod.mk.injEq] at h
      obtain ⟨hstate, hres⟩ := h
      subst hstate
      subst hres
      refine ⟨rfl, by simp [hrest], Or.inl ⟨be, rfl, by simpa using hcf⟩⟩
    · rename_i buffer hser
      simp only at h
      split at h
      · rename_i hnone
        rw [show ({ s1 with vector := rest } : SwapVecState T).tempfile
              = s1.tempfile from rfl, hcf] at hnone
        exact absurd hnone (by simp)
      · rename_i cf hcfeq
        rw [show ({ s1 with vector := rest } : SwapVecState T).tempfile
              = s1.tempfile from rfl, hcf] at hcfeq
        obtain rfl : cf0 = cf := Option.some.inj hcfeq
        split at h
        · rename_i cf2 e heqw
          simp [ioTry, fromIoError] at h
        · rename_i cf2 u heqw
          simp only [Except.ok.injEq, Prod.mk.injEq] at h
          obtain ⟨hstate, hres⟩ := h
          subst hstate
          subst hres
          refine ⟨rfl, by simp [hrest], Or.inr ⟨rfl, ?_⟩⟩
          unfold CheckedFile.write_all at heqw
          split at heqw
          · exact absurd (Prod.mk.injEq .. ▸ heqw).2 (by simp)
          · split at heqw
            · exact absurd (Prod.mk.injEq .. ▸ heqw).2 (by simp)
            · obtain ⟨hcf2, -⟩ := Prod.mk.injEq .. ▸ heqw
              exact ⟨_, _, by rw [← hcf2]⟩

theorem flush_pop_success (env : Env T) (s1 : SwapVecState T)
    (cf : CheckedFile) (buf : List Nat)
    (hcf : s1.tempfile = some cf)
    (hle : s1.config.batch_size ≤ s1.vector.length)
    (hser : env.serialize (s1.vector.take s1.config.batch_size) = .ok buf)
    (hw : env.writeAll (env.compress s1.config.compression buf) = .ok ())
    (hf : env.flushFile = .ok ()) :
    flush_pop env s1 = .ok
      ({ tempfile := some
          { file := cf.file ++ env.compress s1.config.compression buf
            batch_info := cf.batch_info ++
              [{ hash := env.hashBytes (env.compress s1.config.compression buf)
                 bytes := (env.compress s1.config.compression buf).length }] }
         vector := s1.vector.drop s1.config.batch_size
         config := s1.config }, .ok ()) := by
  unfold flush_pop
  rw [popFrontN_of_le _ _ hle]
  simp only [hser, hcf, CheckedFile.write_all, hw, hf]

theorem after_push_cases (env : Env T) (s s' : SwapVecState T)
    (r : Except SwapVecError Unit)
    (h : after_push_work env s = .ok (s', r)) :
    (s' = s ∧ r = .ok ()) ∨
    (∃ cf0 : CheckedFile,
      s.config.batch_size < s.vector.length ∧
      s'.config = s.config ∧
      s'.vector = s.vector.drop s.config.batch_size ∧
      (s.tempfile = some cf0 ∨
        (s.tempfile = none ∧ cf0 = { file := [], batch_info := [] })) ∧
      ((∃ be, r = .error (SwapVecError.SerializationFailed be) ∧
          s'.tempfile = some cf0) ∨
       (r = .ok () ∧ ∃ bytes rec, s'.tempfile =
          some { file := cf0.file ++ bytes
                 batch_info := cf0.batch_info ++ [rec] }))) := by
  unfold after_push_work at h
  split at h
  · left
    obtain ⟨hstate, hres⟩ := Prod.mk.injEq .. ▸ Except.ok.inj h
    exact ⟨hstate.symm, hres.symm⟩
  · rename_i hc1
    split at h
    · left
      obtain ⟨hstate, hres⟩ := Prod.mk.injEq .. ▸ Except.ok.inj h
      exact ⟨hstate.symm, hres.symm⟩
    · rename_i hc2
      have hlt : s.config.batch_size < s.vector.length := Nat.not_le.mp hc1
      unfold flush_batch at h
      split at h
      · rename_i hnone
        have hnone2 : s.tempfile = none := Option.isNone_iff_eq_none.mp hnone
        split at h
        · simp [ioTry, fromIoError] at h
        · have hfp := flush_pop_cases env
            { s with tempfile := some { file := [], batch_info := [] } } s' r
            { file := [], batch_info := [] } rfl (Nat.le_of_lt hlt) h
          exact Or.inr ⟨{ file := [], batch_info := [] }, hlt, hfp.1, hfp.2.1,
            Or.inr ⟨hnone2, rfl⟩, hfp.2.2⟩
      · rename_i hnotnone
        obtain ⟨cf, hcf⟩ : ∃ cf, s.tempfile = some cf := by
          cases hopt : s.tempfile with
          | none => exact absurd (by simp [hopt]) hnotnone
          | some cf => exact ⟨cf, rfl⟩
        have hfp := flush_pop_cases env s s' r cf hcf (Nat.le_of_lt hlt) h
        exact Or.inr ⟨cf, hlt, hfp.1, hfp.2.1, Or.inl hcf, hfp.2.2⟩

/-- `batches_written` of a state whose file holds the given records. -/
theorem batches_written_some (cf : CheckedFile) (v : List T)
    (c : SwapVecConfig) :
    SwapVecState.batches_written { tempfile := some cf, vector := v, config := c }
      = cf.batch_info.length := rfl

theorem set_vector_tempfile (s : SwapVecState T) (v : List T) :
    ({ s with vector := v } : SwapVecState T).tempfile = s.tempfile := rfl

theorem set_vector_config (s : SwapVecState T) (v : List T) :
    ({ s with vector := v } : SwapVecState T).config = s.config := rfl

theorem set_vector_vector (s : SwapVecState T) (v : List T) :
    ({ s with vector := v } : SwapVecState T).vector = v := rfl

theorem set_vector_batches (s : SwapVecState T) (v : List T) :
    ({ s with vector := v } : SwapVecState T).batches_written
      = s.batches_written := rfl

theorem apw_batches_le (env : Env T) (s s' : SwapVecState T)
    (r : Except SwapVecError Unit)
    (h : after_push_work env s = .ok (s', r)) :
    s'.batches_written ≤ s.batches_written + 1 := by
  rcases after_push_cases env s s' r h with ⟨rfl, -⟩ |
    ⟨cf0, hlt, hcfg, hvec, hopt, hres⟩
  · exact Nat.le_succ _
  · have hs : s.batches_written = cf0.batch_info.length ∨
        (s.batches_written = 0 ∧ cf0.batch_info.length = 0) := by
      rcases hopt with hcf | ⟨hcf, rfl⟩
      · left; simp [SwapVecState.batches_written, hcf]
      · right; simp [SwapVecState.batches_written, hcf]
    rcases hres with ⟨be, hr, htf⟩ | ⟨hr, bytes, rec, htf⟩
    · have h1 : s'.batches_written = cf0.batch_info.length := by
        simp [SwapVecState.batches_written, htf]
      omega
    · have h1 : s'.batches_written = cf0.batch_info.length + 1 := by
        simp [SwapVecState.batches_written, htf]
      omega

theorem apw_count (env : Env T) (s s' : SwapVecState T)
    (h : after_push_work env s = .ok (s', .ok ())) :
    s'.config = s.config ∧
    s'.vector.length + s.config.batch_size * s'.batches_written
      = s.vector.length + s.config.batch_size * s.batches_written := by
  rcases after_push_cases env s s' (.ok ()) h with ⟨rfl, -⟩ |
    ⟨cf0, hlt, hcfg, hvec, hopt, hres⟩
  · exact ⟨rfl, rfl⟩
  · rcases hres with ⟨be, hr, -⟩ | ⟨-, bytes, rec, htf⟩
    · exact absurd hr (by simp)
    · refine ⟨hcfg, ?_⟩
      have hb : s'.batches_written = cf0.batch_info.length + 1 := by
        simp [SwapVecState.batches_written, htf]
      have hbs : s.batches_written = cf0.batch_info.length ∨
          (s.batches_written = 0 ∧ cf0.batch_info.length = 0) := by
        rcases hopt with hcf | ⟨hcf, rfl⟩
        · left; simp [SwapVecState.batches_written, hcf]
        · right; simp [SwapVecState.batches_written, hcf]
      have hlen : s'.vector.length = s.vector.length - s.config.batch_size := by
        simp [hvec]
      rw [hlen, hb, Nat.mul_succ]
      rcases hbs with hbs | ⟨hbs, hbs2⟩
      · rw [hbs]
        omega
      · rw [hbs, hbs2]
        omega

theorem apw_file_mono (env : Env T) (s s' : SwapVecState T)
    (r : Except SwapVecError Unit) (cf : CheckedFile)
    (hcf : s.tempfile = some cf)
    (h : after_push_work env s = .ok (s', r)) :
    ∃ cf2 ext, s'.tempfile = some cf2 ∧ cf2.file = cf.file ++ ext := by
  rcases after_push_cases env s s' r h with ⟨rfl, -⟩ |
    ⟨cf0, hlt, hcfg, hvec, hopt, hres⟩
  · exact ⟨cf, [], hcf, by simp⟩
  · have hcf0 : cf0 = cf := by
      rcases hopt with hcf2 | ⟨hcf2, rfl⟩
      · exact Option.some.inj (hcf2.symm.trans hcf)
      · exact absurd (hcf2.symm.trans hcf) (by simp)
    subst hcf0
    rcases hres with ⟨be, hr, htf⟩ | ⟨hr, bytes, rec, htf⟩
    · exact ⟨cf0, [], htf, by simp⟩
    · exact ⟨_, bytes, htf, rfl⟩

theorem flush_pop_ne_unwrap (env : Env T) (s1 : SwapVecState T)
    (cf : CheckedFile) (hcf : s1.tempfile = some cf)
    (hle : s1.config.batch_size ≤ s1.vector.length) :
    flush_pop env s1 ≠ .error PanicKind.unwrapFailed := by
  intro h
  unfold flush_pop at h
  split at h
  · rename_i heq
    rw [popFrontN_of_le _ _ hle] at heq
    exact absurd heq (by simp)
  · rename_i batch rest heq
    split at h
    · exact absurd h (by simp)
    · rename_i buffer hser
      simp only at h
      split at h
      · rename_i hnone
        rw [show ({ s1 with vector := rest } : SwapVecState T).tempfile
              = s1.tempfile from rfl, hcf] at hnone
        exact absurd hnone (by simp)
      · rename_i cf2 hcfeq
        split at h
        · rename_i cf3 e heqw
          simp [ioTry, fromIoError] at h
        · exact absurd h (by simp)

/-- C9: the flush branch of `after_push_work` never panics on its
`unwrap` calls: whenever it executes, the guard has established that the
queue holds strictly more than `batch_size` elements, so every one of the
`batch_size` calls to `pop_front().unwrap()` succeeds, and the temporary
file is present when `tempfile.as_mut().unwrap()` runs, having been
opened just before if it was absent.  Modelled: the result is never the
`unwrapFailed` panic, for any environment and any state. -/
theorem no_unwrap_failure (env : Env T) (s : SwapVecState T) :
    after_push_work env s ≠ .error PanicKind.unwrapFailed := by
  intro h
  unfold after_push_work at h
  split at h
  · exact absurd h (by simp)
  · rename_i hc1
    split at h
    · exact absurd h (by simp)
    · rename_i hc2
      have hle : s.config.batch_size ≤ s.vector.length :=
        Nat.le_of_lt (Nat.not_le.mp hc1)
      unfold flush_batch at h
      split at h
      · split at h
        · simp [ioTry, fromIoError] at h
        · exact flush_pop_ne_unwrap env
            { s with tempfile := some { file := [], batch_info := [] } }
            { file := [], batch_info := [] } rfl hle h
      · rename_i hnotnone
        obtain ⟨cf, hcf⟩ : ∃ cf, s.tempfile = some cf := by
          cases hopt : s.tempfile with
          | none => exact absurd (by simp [hopt]) hnotnone
          | some cf => exact ⟨cf, rfl⟩
        exact flush_pop_ne_unwrap env s cf hcf hle h

theorem pushAll_count : ∀ (steps : List (Env T × T)) (s s' : SwapVecState T),
    pushAll s steps = .ok (s', .ok ()) →
    s'.config = s.config ∧
    s'.vector.length + s.config.batch_size * s'.batches_written
      = s.vector.length + s.config.batch_size * s.batches_written
        + steps.length := by
  intro steps
  induction steps with
  | nil =>
    intro s s' h
    obtain ⟨h1, -⟩ := Prod.mk.injEq .. ▸ Except.ok.inj h
    subst h1
    exact ⟨rfl, by simp⟩
  | cons p rest ih =>
    obtain ⟨env, x⟩ := p
    intro s s' h
    unfold pushAll at h
    split at h
    · exact absurd h (by simp)
    · rename_i s1 e hp
      obtain ⟨-, h2⟩ := Prod.mk.injEq .. ▸ Except.ok.inj h
      exact absurd h2 (by simp)
    · rename_i s1 u hp
      unfold push at hp
      have hstep := apw_count env { s with vector := s.vector ++ [x] } s1 hp
      have hrest := ih s1 s' h
      have hcfg1 : s1.config = s.config := hstep.1
      refine ⟨hrest.1.trans hcfg1, ?_⟩
      have e1 := hstep.2
      have e2 := hrest.2
      rw [hcfg1] at e2
      simp only [set_vector_vector, set_vector_config, set_vector_batches,
        List.length_append, List.length_cons, List.length_nil] at e1
      simp only [List.length_cons]
      omega

theorem apw_no_flush (env : Env T) (s : SwapVecState T)
    (hnone : s.tempfile = none)
    (hle : s.vector.length ≤ max s.config.swap_after s.config.batch_size) :
    after_push_work env s = .ok (s, .ok ()) := by
  unfold after_push_work
  by_cases h1 : s.vector.length ≤ s.config.batch_size
  · rw [if_pos h1]
  · rw [if_neg h1]
    have h2 : s.vector.length ≤ s.config.swap_after := by
      rcases le_max_iff.mp hle with h | h
      · exact h
      · exact absurd h h1
    rw [if_pos ⟨by simp [hnone], h2⟩]

theorem pushAll_noFile : ∀ (steps : List (Env T × T)) (s : SwapVecState T),
    s.tempfile = none →
    s.vector.length + steps.length
      ≤ max s.config.swap_after s.config.batch_size →
    pushAll s steps =
      .ok ({ s with vector := s.vector ++ steps.map Prod.snd }, .ok ()) := by
  intro steps
  induction steps with
  | nil =>
    intro s hnone hle
    simp [pushAll]
  | cons p rest ih =>
    obtain ⟨env, x⟩ := p
    intro s hnone hle
    have hstep : push env s x = .ok ({ s with vector := s.vector ++ [x] }, .ok ()) := by
      unfold push
      exact apw_no_flush env { s with vector := s.vector ++ [x] } hnone
        (by simp only [List.length_append, List.length_cons, List.length_nil]
            simp only [List.length_cons] at hle
            omega)
    unfold pushAll
    rw [hstep]
    show pushAll { s with vector := s.vector ++ [x] } rest = _
    rw [ih { s with vector := s.vector ++ [x] } hnone
      (by simp only [set_vector_vector, set_vector_config,
            List.length_append, List.length_cons, List.length_nil]
          simp only [List.length_cons] at hle
          omega)]
    simp

theorem pushAll_file_mono : ∀ (steps : List (Env T × T))
    (s s' : SwapVecState T) (rr : Except SwapVecError Unit) (cf : CheckedFile),
    s.tempfile = some cf → pushAll s steps = .ok (s', rr) →
    ∃ cf2 ext, s'.tempfile = some cf2 ∧ cf2.file = cf.file ++ ext := by
  intro steps
  induction steps with
  | nil =>
    intro s s' rr cf hcf h
    obtain ⟨h1, -⟩ := Prod.mk.injEq .. ▸ Except.ok.inj h
    subst h1
    exact ⟨cf, [], hcf, by simp⟩
  | cons p rest ih =>
    obtain ⟨env, x⟩ := p
    intro s s' rr cf hcf h
    unfold pushAll at h
    split at h
    · exact absurd h (by simp)
    · rename_i s1 e hp
      obtain ⟨h1, -⟩ := Prod.mk.injEq .. ▸ Except.ok.inj h
      subst h1
      unfold push at hp
      exact apw_file_mono env _ _ _ cf
        (show ({ s with vector := s.vector ++ [x] } : SwapVecState T).tempfile
            = some cf from hcf) hp
    · rename_i s1 u hp
      unfold push at hp
      obtain ⟨cf1, ext1, hcf1, hfile1⟩ := apw_file_mono env _ s1 _ cf
        (show ({ s with vector := s.vector ++ [x] } : SwapVecState T).tempfile
            = some cf from hcf) hp
      obtain ⟨cf2, ext2, hcf2, hfile2⟩ := ih s1 s' rr cf1 hcf1 h
      exact ⟨cf2, ext1 ++ ext2, hcf2, by rw [hfile2, hfile1, List.append_assoc]⟩

theorem consume_file_mono : ∀ (vals : List T) (env : Env T)
    (s s' : SwapVecState T) (rr : Except SwapVecError Unit) (cf : CheckedFile),
    s.tempfile = some cf → consume env s vals = .ok (s', rr) →
    ∃ cf2 ext, s'.tempfile = some cf2 ∧ cf2.file = cf.file ++ ext := by
  intro vals
  induction vals with
  | nil =>
    intro env s s' rr cf hcf h
    obtain ⟨h1, -⟩ := Prod.mk.injEq .. ▸ Except.ok.inj h
    subst h1
    exact ⟨cf, [], hcf, by simp⟩
  | cons x rest ih =>
    intro env s s' rr cf hcf h
    unfold consume at h
    split at h
    · exact absurd h (by simp)
    · rename_i s1 e hp
      obtain ⟨h1, -⟩ := Prod.mk.injEq .. ▸ Except.ok.inj h
      subst h1
      unfold push at hp
      exact apw_file_mono env _ _ _ cf
        (show ({ s with vector := s.vector ++ [x] } : SwapVecState T).tempfile
            = some cf from hcf) hp
    · rename_i s1 u hp
      unfold push at hp
      obtain ⟨cf1, ext1, hcf1, hfile1⟩ := apw_file_mono env _ s1 _ cf
        (show ({ s with vector := s.vector ++ [x] } : SwapVecState T).tempfile
            = some cf from hcf) hp
      split at h
      · exact absurd h (by simp)
      · rename_i s2 e2 hp2
        obtain ⟨h1, -⟩ := Prod.mk.injEq .. ▸ Except.ok.inj h
        subst h1
        obtain ⟨cf2, ext2, hcf2, hfile2⟩ := apw_file_mono env s1 _ _ cf1 hcf1 hp2
        exact ⟨cf2, ext1 ++ ext2, hcf2, by rw [hfile2, hfile1, List.append_assoc]⟩
      · rename_i s2 u2 hp2
        obtain ⟨cf2, ext2, hcf2, hfile2⟩ := apw_file_mono env s1 s2 _ cf1 hcf1 hp2
        obtain ⟨cf3, ext3, hcf3, hfile3⟩ := ih env s2 s' rr cf2 hcf2 h
        refine ⟨cf3, (ext1 ++ ext2) ++ ext3, hcf3, ?_⟩
        rw [hfile3, hfile2, hfile1]
        simp [List.append_assoc]

/-- C4 (code_bug): the conversion from an underlying io failure to the
error taxonomy is NOT total and panic-free in the source: the body of
`impl From<std::io::Error> for SwapVecError` is `todo!()`, so it
classifies no io error at all (`fromIoError` yields `none` on every
input), and an io failure during file creation aborts the process
(`todoUnimplemented`) instead of returning an error to the caller. -/
theorem io_error_conversion_unimplemented :
    fromIoError IoErrorKind.permissionDenied = none ∧
    fromIoError IoErrorKind.outOfDisk = none ∧
    fromIoError IoErrorKind.other = none ∧
    after_push_work envTempFail sFreshTwo = .error PanicKind.todoUnimplemented :=
  ⟨rfl, rfl, rfl, rfl⟩

/-- C5: with `batch_size = 4` and `swap_after = 4`, pushing the five
values 1..5 one at a time leaves `written_to_file` false after each of
the first four pushes, and after the fifth push `written_to_file` is
true, exactly one batch of four elements has been flushed, and exactly
one element remains resident in the queue. -/
theorem threshold_five_pushes :
    (runPushes cfg44 envOk [1]).map SwapVecState.written_to_file = some false ∧
    (runPushes cfg44 envOk [1, 2]).map SwapVecState.written_to_file = some false ∧
    (runPushes cfg44 envOk [1, 2, 3]).map SwapVecState.written_to_file
      = some false ∧
    (runPushes cfg44 envOk [1, 2, 3, 4]).map SwapVecState.written_to_file
      = some false ∧
    (runPushes cfg44 envOk [1, 2, 3, 4, 5]).map SwapVecState.written_to_file
      = some true ∧
    (runPushes cfg44 envOk [1, 2, 3, 4, 5]).map (fun s => s.vector)
      = some [5] ∧
    (runPushes cfg44 envOk [1, 2, 3, 4, 5]).map SwapVecState.batches_written
      = some 1 := by
  decide

/-- C8: the default configuration has `swap_after` = 33554432 elements,
`batch_size` = 32768 elements and no compression, and a buffer built with
defaults starts with an empty queue and no file. -/
theorem default_construction :
    SwapVecConfig.default.swap_after = 33554432 ∧
    SwapVecConfig.default.batch_size = 32768 ∧
    SwapVecConfig.default.compression = none ∧
    ∀ T : Type, (SwapVecState.default T).tempfile = none ∧
      (SwapVecState.default T).vector = [] ∧
      (SwapVecState.default T).config = SwapVecConfig.default :=
  ⟨rfl, rfl, rfl, fun _ => ⟨rfl, rfl, rfl⟩⟩

/-- C1 (counterexample): one single insertion performed as a step of
`consume` can trigger TWO flushes, not at most one.  With
`batch_size = 1` and `swap_after = 2`, consuming the two values 0, 1
writes no batch, while consuming 0, 1, 2 writes two batches: the third
insertion alone caused two flushes, because `consume` runs the
flush-decision step twice per element (once inside `push` and once
again directly). -/
theorem consume_step_two_flushes :
    (runConsume cfgBurst envOk [0, 1]).map SwapVecState.batches_written
      = some 0 ∧
    (runConsume cfgBurst envOk [0, 1, 2]).map SwapVecState.batches_written
      = some 2 := by
  decide

/-- C1 (amended): a single insertion via `push` performs at most one
flush, removing either nothing or exactly one batch of `batch_size`
elements from the front of the queue, never more; a single insertion
performed as one step of `consume` runs the flush-decision step twice
and therefore performs at most two flushes. -/
theorem push_at_most_one_flush (env : Env T) (s s' t' : SwapVecState T)
    (x y : T) (r r2 : Except SwapVecError Unit)
    (h : push env s x = .ok (s', r))
    (h2 : consume env s [y] = .ok (t', r2)) :
    (s'.batches_written ≤ s.batches_written + 1 ∧
     (s'.vector = s.vector ++ [x] ∨
       (s.config.batch_size < (s.vector ++ [x]).length ∧
        s'.vector = (s.vector ++ [x]).drop s.config.batch_size))) ∧
    t'.batches_written ≤ s.batches_written + 2 := by
  constructor
  · unfold push at h
    have hb := apw_batches_le env _ s' r h
    rw [set_vector_batches] at hb
    refine ⟨hb, ?_⟩
    rcases after_push_cases env _ s' r h with ⟨rfl, -⟩ |
      ⟨cf0, hlt, hcfg, hvec, -, -⟩
    · exact Or.inl (set_vector_vector s (s.vector ++ [x]))
    · rw [set_vector_config] at hvec hlt
      rw [set_vector_vector] at hvec hlt
      exact Or.inr ⟨hlt, hvec⟩
  · unfold consume at h2
    split at h2
    · exact absurd h2 (by simp)
    · rename_i s1 e hp
      obtain ⟨h1, -⟩ := Prod.mk.injEq .. ▸ Except.ok.inj h2
      subst h1
      unfold push at hp
      have hb := apw_batches_le env _ _ _ hp
      have heq : ({ s with vector := s.vector ++ [y] } :
          SwapVecState T).batches_written = s.batches_written := rfl
      omega
    · rename_i s1 u hp
      unfold push at hp
      have hb1 := apw_batches_le env _ s1 _ hp
      have heq : ({ s with vector := s.vector ++ [y] } :
          SwapVecState T).batches_written = s.batches_written := rfl
      split at h2
      · exact absurd h2 (by simp)
      · rename_i s2 e2 hp2
        obtain ⟨h1, -⟩ := Prod.mk.injEq .. ▸ Except.ok.inj h2
        subst h1
        have hb2 := apw_batches_le env s1 _ _ hp2
        omega
      · rename_i s2 u2 hp2
        obtain ⟨h1, -⟩ := Prod.mk.injEq .. ▸ Except.ok.inj h2
        subst h1
        have hb2 := apw_batches_le env s1 _ _ hp2
        omega

/-- Witness for C1 (amended): pushing 5 into a fresh buffer with
`batch_size = 4` leaves the queue at [5] and no batch written, within the
bounds the theorem states. -/
theorem push_at_most_one_flush_witness :
    (SwapVecState.batches_written
        { tempfile := none, vector := [5], config := cfg44 } ≤
      (SwapVecState.with_config Nat cfg44).batches_written + 1 ∧
     (([5] : List Nat) = (SwapVecState.with_config Nat cfg44).vector ++ [5] ∨
       (cfg44.batch_size <
          ((SwapVecState.with_config Nat cfg44).vector ++ [5]).length ∧
        ([5] : List Nat) =
          ((SwapVecState.with_config Nat cfg44).vector ++ [5]).drop
            cfg44.batch_size))) ∧
    SwapVecState.batches_written
        { tempfile := none, vector := [5], config := cfg44 } ≤
      (SwapVecState.with_config Nat cfg44).batches_written + 2 := by
  have h := push_at_most_one_flush envOk (SwapVecState.with_config Nat cfg44)
    { tempfile := none, vector := [5], config := cfg44 }
    { tempfile := none, vector := [5], config := cfg44 }
    5 5 (.ok ()) (.ok ()) rfl rfl
  exact ⟨⟨h.1.1, h.1.2⟩, h.2⟩

/-- C3: for every sequence of successful insertions via `push` into a
fresh buffer, the number of elements left in the in-memory queue plus
`batch_size` times the number of recorded batch records equals the total
number of elements inserted: the write phase neither loses nor
duplicates an element. -/
theorem push_sequence_conservation (c : SwapVecConfig)
    (steps : List (Env T × T)) (s' : SwapVecState T)
    (h : pushAll (SwapVecState.with_config T c) steps = .ok (s', .ok ())) :
    s'.vector.length + c.batch_size * s'.batches_written = steps.length := by
  have hc := (pushAll_count steps (SwapVecState.with_config T c) s' h).2
  simpa [SwapVecState.with_config, SwapVecState.batches_written] using hc

/-- Witness for C3: pushing 3, 4, 5 with `batch_size = 1` flushes two
batches and leaves one element resident: 1 + 1 * 2 = 3. -/
theorem push_sequence_conservation_witness :
    (⟨some ⟨[3, 4], [⟨1, 1⟩, ⟨1, 1⟩]⟩, [5], cfgOne⟩ :
        SwapVecState Nat).vector.length
      + cfgOne.batch_size *
        (⟨some ⟨[3, 4], [⟨1, 1⟩, ⟨1, 1⟩]⟩, [5], cfgOne⟩ :
          SwapVecState Nat).batches_written
      = 3 :=
  push_sequence_conservation cfgOne [(envOk, 3), (envOk, 4), (envOk, 5)] _ rfl

/-- C6: as long as no more elements have been inserted than
`max swap_after batch_size`, a fresh buffer fed one `push` at a time
never creates a temporary file: every push succeeds with no effect
beyond appending, `written_to_file` is false and `file_size` is `none`.
This covers zero insertions. -/
theorem below_threshold_no_spill (c : SwapVecConfig)
    (steps : List (Env T × T))
    (h : steps.length ≤ max c.swap_after c.batch_size) :
    pushAll (SwapVecState.with_config T c) steps =
      .ok (({ tempfile := none, vector := steps.map Prod.snd, config := c } :
        SwapVecState T), .ok ()) ∧
    SwapVecState.written_to_file
      ({ tempfile := none, vector := steps.map Prod.snd, config := c } :
        SwapVecState T) = false ∧
    SwapVecState.file_size
      ({ tempfile := none, vector := steps.map Prod.snd, config := c } :
        SwapVecState T) = none := by
  refine ⟨?_, rfl, rfl⟩
  have hp := pushAll_noFile steps (SwapVecState.with_config T c) rfl
    (by simpa [SwapVecState.with_config] using h)
  simpa [SwapVecState.with_config] using hp

/-- Witness for C6: ten insertions under `batch_size = swap_after = 1000`
never open a file, and so does the empty insertion sequence. -/
theorem below_threshold_no_spill_witness :
    (pushAll (SwapVecState.with_config Nat cfgLarge)
        [(envOk, 1), (envOk, 2), (envOk, 3), (envOk, 4), (envOk, 5),
         (envOk, 6), (envOk, 7), (envOk, 8), (envOk, 9), (envOk, 10)] =
      .ok (({ tempfile := none
              vector := [(envOk, 1), (envOk, 2), (envOk, 3), (envOk, 4),
                (envOk, 5), (envOk, 6), (envOk, 7), (envOk, 8), (envOk, 9),
                (envOk, 10)].map Prod.snd
              config := cfgLarge } : SwapVecState Nat), .ok ()) ∧
     SwapVecState.written_to_file
       ({ tempfile := none
          vector := [(envOk, 1), (envOk, 2), (envOk, 3), (envOk, 4),
            (envOk, 5), (envOk, 6), (envOk, 7), (envOk, 8), (envOk, 9),
            (envOk, 10)].map Prod.snd
          config := cfgLarge } : SwapVecState Nat) = false ∧
     SwapVecState.file_size
       ({ tempfile := none
          vector := [(envOk, 1), (envOk, 2), (envOk, 3), (envOk, 4),
            (envOk, 5), (envOk, 6), (envOk, 7), (envOk, 8), (envOk, 9),
            (envOk, 10)].map Prod.snd
          config := cfgLarge } : SwapVecState Nat) = none) ∧
    (pushAll (SwapVecState.with_config Nat cfgLarge) [] =
      .ok (({ tempfile := none, vector := ([] : List (Env Nat × Nat)).map Prod.snd
              config := cfgLarge } : SwapVecState Nat), .ok ()) ∧
     SwapVecState.written_to_file
       ({ tempfile := none, vector := ([] : List (Env Nat × Nat)).map Prod.snd
          config := cfgLarge } : SwapVecState Nat) = false ∧
     SwapVecState.file_size
       ({ tempfile := none, vector := ([] : List (Env Nat × Nat)).map Prod.snd
          config := cfgLarge } : SwapVecState Nat) = none) :=
  ⟨below_threshold_no_spill cfgLarge _ (by decide),
   below_threshold_no_spill cfgLarge [] (by decide)⟩

/-- C7: the spill state is monotonic.  Once the buffer holds an open
file, any further run of pushes and any further `consume` leaves
`written_to_file` true, and the file is never replaced or reopened: the
final file contents extend the earlier contents. -/
theorem spill_monotonic (s s' t' : SwapVecState T) (cf : CheckedFile)
    (steps : List (Env T × T)) (env : Env T) (vals : List T)
    (rr rr2 : Except SwapVecError Unit)
    (hcf : s.tempfile = some cf)
    (h1 : pushAll s steps = .ok (s', rr))
    (h2 : consume env s vals = .ok (t', rr2)) :
    (s'.written_to_file = true ∧
      ∃ cf2 ext, s'.tempfile = some cf2 ∧ cf2.file = cf.file ++ ext) ∧
    (t'.written_to_file = true ∧
      ∃ cf3 ext2, t'.tempfile = some cf3 ∧ cf3.file = cf.file ++ ext2) := by
  obtain ⟨cf2, ext, htf, hfile⟩ := pushAll_file_mono steps s s' rr cf hcf h1
  obtain ⟨cf3, ext2, htf2, hfile2⟩ := consume_file_mono vals env s t' rr2 cf hcf h2
  exact ⟨⟨by simp [SwapVecState.written_to_file, htf], cf2, ext, htf, hfile⟩,
    ⟨by simp [SwapVecState.written_to_file, htf2], cf3, ext2, htf2, hfile2⟩⟩

/-- Witness for C7: a spilled buffer stays spilled across one further
push and one further consumed element. -/
theorem spill_monotonic_witness :
    ((⟨some ⟨[], []⟩, [1], cfg44⟩ : SwapVecState Nat).written_to_file = true ∧
      ∃ cf2 ext, (⟨some ⟨[], []⟩, [1], cfg44⟩ :
          SwapVecState Nat).tempfile = some cf2 ∧
        cf2.file = (⟨[], []⟩ : CheckedFile).file ++ ext) ∧
    ((⟨some ⟨[], []⟩, [2], cfg44⟩ : SwapVecState Nat).written_to_file = true ∧
      ∃ cf3 ext2, (⟨some ⟨[], []⟩, [2], cfg44⟩ :
          SwapVecState Nat).tempfile = some cf3 ∧
        cf3.file = (⟨[], []⟩ : CheckedFile).file ++ ext2) :=
  spill_monotonic sSpilledEmpty
    (⟨some ⟨[], []⟩, [1], cfg44⟩ : SwapVecState Nat)
    (⟨some ⟨[], []⟩, [2], cfg44⟩ : SwapVecState Nat)
    ⟨[], []⟩ [(envOk, 1)] envOk [2] (.ok ()) (.ok ()) rfl rfl rfl

/-- C2: the flush-decision step after appending a value, with `n` the
current queue length.  If `n <= batch_size` nothing happens; else if no
file has been opened yet and `n <= swap_after` nothing happens;
otherwise (when every external effect succeeds) exactly one flush
occurs: the file is opened if needed, the `batch_size` oldest elements
are removed from the front of the queue in order, serialized,
compressed, and the result is appended to the batch store together with
one hash/length record. -/
theorem after_push_work_flush_cases (env : Env T) (s : SwapVecState T)
    (buf : List Nat)
    (hnew : env.tempfileNew = .ok ())
    (hser : env.serialize (s.vector.take s.config.batch_size) = .ok buf)
    (hw : env.writeAll (env.compress s.config.compression buf) = .ok ())
    (hf : env.flushFile = .ok ()) :
    (s.vector.length ≤ s.config.batch_size →
      after_push_work env s = .ok (s, .ok ())) ∧
    (s.tempfile = none → s.vector.length ≤ s.config.swap_after →
      after_push_work env s = .ok (s, .ok ())) ∧
    (s.config.batch_size < s.vector.length →
     (s.tempfile = none → s.config.swap_after < s.vector.length) →
      after_push_work env s = .ok (expectedFlush env s buf, .ok ())) := by
  refine ⟨?_, ?_, ?_⟩
  · intro hlen
    unfold after_push_work
    rw [if_pos hlen]
  · intro hnone hsa
    unfold after_push_work
    by_cases hlen : s.vector.length ≤ s.config.batch_size
    · rw [if_pos hlen]
    · rw [if_neg hlen, if_pos ⟨by simp [hnone], hsa⟩]
  · intro hlt hsa
    have hnle : ¬ s.vector.length ≤ s.config.batch_size := Nat.not_le.mpr hlt
    have hc2 : ¬(s.tempfile.isNone = true ∧
        s.vector.length ≤ s.config.swap_after) := by
      rintro ⟨h1, h2⟩
      exact absurd h2 (Nat.not_le.mpr (hsa (Option.isNone_iff_eq_none.mp h1)))
    unfold after_push_work
    rw [if_neg hnle, if_neg hc2]
    unfold flush_batch
    cases hopt : s.tempfile with
    | none =>
      rw [if_pos (by simp [hopt]), hnew]
      rw [flush_pop_success env
        { s with tempfile := some { file := [], batch_info := [] } }
        { file := [], batch_info := [] } buf rfl (Nat.le_of_lt hlt) hser hw hf]
      simp [expectedFlush, hopt]
    | some cf =>
      rw [if_neg (by simp [hopt])]
      rw [flush_pop_success env s cf buf hopt (Nat.le_of_lt hlt) hser hw hf]
      simp [expectedFlush, hopt]

/-- Witness for C2 at a fresh two-element buffer with
`batch_size = swap_after = 1` under the all-success environment. -/
theorem after_push_work_flush_cases_witness :
    (sFreshTwo.vector.length ≤ sFreshTwo.config.batch_size →
      after_push_work envOk sFreshTwo = .ok (sFreshTwo, .ok ())) ∧
    (sFreshTwo.tempfile = none →
      sFreshTwo.vector.length ≤ sFreshTwo.config.swap_after →
      after_push_work envOk sFreshTwo = .ok (sFreshTwo, .ok ())) ∧
    (sFreshTwo.config.batch_size < sFreshTwo.vector.length →
     (sFreshTwo.tempfile = none →
       sFreshTwo.config.swap_after < sFreshTwo.vector.length) →
      after_push_work envOk sFreshTwo =
        .ok (expectedFlush envOk sFreshTwo [1], .ok ())) :=
  after_push_work_flush_cases envOk sFreshTwo [1] rfl rfl rfl rfl

/-- C10 (counterexample): the claim asserts that when the file write
fails during a flush, the already-removed batch is lost and THE ERROR IS
RETURNED to the caller.  In the source no error is returned in that
case: the io failure is routed through the unimplemented
`From<std::io::Error>` conversion, which panics.  Concretely, a flush of
the spilled two-element buffer whose write fails out-of-disk evaluates
to the todo panic, not to any returned error result. -/
theorem write_failure_no_error_returned :
    after_push_work envWriteFail sSpilledTwo
      = .error PanicKind.todoUnimplemented := rfl

/-- C10 (amended): a failed flush is not atomic with respect to the
queue.  If serialization fails, the `batch_size` oldest elements have
already been removed and are not restored, the batch store is untouched,
and the `SerializationFailed` error is returned: the removed elements
are held by neither the queue nor the batch store.  If the file write
fails, the elements are likewise already removed and unrecorded, but no
error is returned to the caller: the unimplemented io-error conversion
panics instead. -/
theorem flush_failure_drops_batch (env1 env2 : Env T) (s : SwapVecState T)
    (cf : CheckedFile) (be : BincodeErrorKind) (io : IoErrorKind)
    (buf : List Nat)
    (hcf : s.tempfile = some cf)
    (hlt : s.config.batch_size < s.vector.length)
    (hser1 : env1.serialize (s.vector.take s.config.batch_size) = .error be)
    (hser2 : env2.serialize (s.vector.take s.config.batch_size) = .ok buf)
    (hw2 : env2.writeAll (env2.compress s.config.compression buf)
      = .error io) :
    after_push_work env1 s =
      .ok ({ s with vector := s.vector.drop s.config.batch_size },
        .error (SwapVecError.SerializationFailed be)) ∧
    after_push_work env2 s = .error PanicKind.todoUnimplemented := by
  have hnle : ¬ s.vector.length ≤ s.config.batch_size := Nat.not_le.mpr hlt
  have hc2 : ¬(s.tempfile.isNone = true ∧
      s.vector.length ≤ s.config.swap_after) := by
    rintro ⟨h1, -⟩
    rw [hcf] at h1
    simp at h1
  have hnotnone : ¬ s.tempfile.isNone = true := by simp [hcf]
  constructor
  · unfold after_push_work
    rw [if_neg hnle, if_neg hc2]
    unfold flush_batch
    rw [if_neg hnotnone]
    unfold flush_pop
    rw [popFrontN_of_le _ _ (Nat.le_of_lt hlt)]
    simp only [hser1]
  · unfold after_push_work
    rw [if_neg hnle, if_neg hc2]
    unfold flush_batch
    rw [if_neg hnotnone]
    unfold flush_pop
    rw [popFrontN_of_le _ _ (Nat.le_of_lt hlt)]
    simp only [hser2, hcf, CheckedFile.write_all, hw2, ioTry, fromIoError]

/-- Witness for C10 (amended) on the spilled two-element buffer: the
serialization-failure environment returns the typed error with the
front element dropped, the write-failure environment panics. -/
theorem flush_failure_drops_batch_witness :
    after_push_work envSerFail sSpilledTwo =
      .ok ({ sSpilledTwo with
          vector := sSpilledTwo.vector.drop sSpilledTwo.config.batch_size },
        .error (SwapVecError.SerializationFailed ⟨7⟩)) ∧
    after_push_work envWriteFail sSpilledTwo
      = .error PanicKind.todoUnimplemented :=
  flush_failure_drops_batch envSerFail envWriteFail sSpilledTwo ⟨[], []⟩ ⟨7⟩
    IoErrorKind.outOfDisk [7] rfl (by decide) rfl rfl rfl

end SwapVecModel
